import Mathlib

/-!
Shallow embedding of the UniShop IA service semantic classifier
(src/ia-service/src/semantic_classifier.py).

Python dictionaries that carry catalog items are modelled as association
lists from field names to values; Python mutation of a freshly made copy
is modelled by pure functions producing the updated association list.
The external embedding backend (sentence-transformers encode followed by
sklearn cosine_similarity) is modelled as an abstract similarity
function `sim : String → String → ℚ` giving the cosine similarity of a
text against the stored vector of a category, since the backend is an
external library, not code of this repository.  Python floats are
modelled as rationals.
-/

namespace UniShop

/-- Value stored in a catalog-item dictionary field: a string or a number. -/
inductive Val where
  | str (s : String)
  | num (q : ℚ)
deriving DecidableEq

/-- A catalog item (a Python dict) as an association list of fields. -/
abbrev Book := List (String × Val)

/-- Python d.get(k, default): value of the first binding of k, else the default. -/
def getD (b : Book) (k : String) (d : Val) : Val :=
  match b.find? (fun p => p.1 == k) with
  | some p => p.2
  | none => d

/-- Whether the dictionary has a binding for key k. -/
def hasKey (b : Book) (k : String) : Bool :=
  b.any (fun p => p.1 == k)

/-- Python d[k] = v: replace the binding in place if present, else append it. -/
def setKey (b : Book) (k : String) (v : Val) : Book :=
  if hasKey b k then b.map (fun p => if p.1 == k then (k, v) else p)
  else b ++ [(k, v)]

/-- Python d.pop(k, None): remove the binding for k if present. -/
def eraseKey (b : Book) (k : String) : Book :=
  b.filter (fun p => p.1 != k)

/-- Python string interpolation of a field value. -/
def strOfVal : Val → String
  | .str s => s
  | .num q => toString q

/-- Python str.lower restricted to the characters occurring in this code
base: ASCII letters and the Spanish accented letters. -/
def pyLowerChar (c : Char) : Char :=
  if 65 ≤ c.toNat ∧ c.toNat ≤ 90 then Char.ofNat (c.toNat + 32)
  else if c = 'Á' then 'á'
  else if c = 'É' then 'é'
  else if c = 'Í' then 'í'
  else if c = 'Ó' then 'ó'
  else if c = 'Ú' then 'ú'
  else if c = 'Ü' then 'ü'
  else if c = 'Ñ' then 'ñ'
  else c

/-- Python query.lower(), character by character. -/
def pyLower (s : String) : String :=
  ⟨s.data.map pyLowerChar⟩

/-- Python str.strip(): remove leading and trailing whitespace. -/
def pyStrip (s : String) : String :=
  ⟨((s.data.dropWhile Char.isWhitespace).reverse.dropWhile Char.isWhitespace).reverse⟩

/-- Python substring test needle in hay. -/
def substrB (needle hay : String) : Bool :=
  decide (needle.data <:+: hay.data)

/-- The academic_categories table of SemanticClassifier.__init__, in
insertion order. -/
def academic_categories : List (String × List String) :=
  [("ingenieria_software",
    ["ingeniería de software", "desarrollo de software", "programación", "algoritmos",
     "estructuras de datos", "bases de datos", "sistemas operativos", "redes",
     "seguridad informática", "inteligencia artificial", "machine learning",
     "python", "java", "javascript", "c++", "desarrollo web", "desarrollo móvil",
     "devops", "cloud computing", "álgebra lineal", "cálculo integral",
     "física mecánica", "ingeniería de requisitos", "aspectos administrativos",
     "clean code", "design patterns", "introduction to algorithms"]),
   ("enfermeria",
    ["enfermería", "cuidados de enfermería", "historia del cuidado", "sociología del cuidado",
     "antropología del cuidado", "sistemas de soporte", "biogenética", "procesos bioquímicos",
     "farmacocinética", "farmacodinamia", "cuidados al adulto", "vigilancia epidemiológica",
     "gerencia del cuidado", "fundamentos de enfermería", "farmacología en enfermería",
     "semiología médica", "bioquímica médica", "microbiología médica", "psicología en enfermería"]),
   ("medicina",
    ["medicina", "semiología clínica", "ayudas diagnósticas", "deontología médica",
     "investigación médica", "inglés médico", "harrison", "guyton", "fisiología médica",
     "patología general", "robbins", "semiología médica", "farmacología básica",
     "katzung", "medicina interna", "pediatría", "cirugía", "ginecología"]),
   ("odontologia",
    ["odontología", "salud oral", "cirugía maxilofacial", "promoción de salud",
     "prevención en salud", "patología oral", "bases quirúrgicas", "cariología",
     "semiología", "farmacoterapia odontológica", "urgencias odontológicas",
     "patología oral y maxilofacial", "nevilla", "periodontología", "carranza",
     "endodoncia", "ingle", "ortodoncia", "proffit", "cirugía oral"]),
   ("derecho",
    ["derecho", "teoría del estado", "derechos humanos", "DIH", "constitución",
     "derecho civil", "derecho penal", "derecho procesal", "derecho laboral",
     "seguridad social", "derecho administrativo", "derecho comercial",
     "consultorio jurídico", "teoría del estado", "kelsen", "derecho constitucional",
     "aragón", "derecho penal", "zaffaroni", "derecho civil", "ospina",
     "derecho procesal", "palacio", "derecho internacional", "remiro"]),
   ("matematicas",
    ["matemáticas", "cálculo", "álgebra", "geometría", "estadística", "probabilidad",
     "álgebra lineal", "cálculo integral", "física mecánica"]),
   ("administracion",
    ["administración", "contabilidad", "finanzas", "marketing", "economía",
     "gestión empresarial", "emprendimiento", "recursos humanos"])]

/-- Category identifiers in insertion order.  When the embedding model is
available, category_embeddings holds exactly one vector per entry of
academic_categories, in the same order. -/
def categoryOrder : List String :=
  academic_categories.map (fun p => p.1)

/-- The student_scenarios table of SemanticClassifier.__init__, in
insertion order. -/
def student_scenarios : List (String × List String) :=
  [("pregrado_inicio", ["primer semestre", "inicio de carrera", "principiante", "básico"]),
   ("práctica_laboratorio", ["práctica", "laboratorio", "experimentos", "práctica clínica"]),
   ("investigación", ["tesis", "investigación", "proyecto de grado", "monografía"]),
   ("profesionalización", ["empleo", "práctica profesional", "pasantía", "empleabilidad"]),
   ("especialización", ["especialización", "maestría", "posgrado", "doctorado"])]

/-- The rules table of _rule_based_classification, in insertion order. -/
def rules : List (String × List String) :=
  [("medicina",
    ["medicina", "anatomía", "fisiología", "patología", "cardiología",
     "enfermería", "clínica", "hospital", "paciente", "diagnóstico"]),
   ("ingenieria_software",
    ["programación", "python", "java", "javascript", "algoritmo",
     "software", "desarrollo", "código", "programar"]),
   ("matematicas",
    ["cálculo", "álgebra", "geometría", "ecuaciones", "matemáticas"]),
   ("derecho",
    ["derecho", "jurídico", "ley", "constitucional", "penal", "civil"]),
   ("administracion",
    ["administración", "contabilidad", "finanzas", "marketing", "empresa"])]

/-- SemanticClassifier._rule_based_classification: lower the query, scan
the rules in order, return the first category one of whose keywords is a
substring of the lowered query with confidence 0.8, else (None, 0.0). -/
def _rule_based_classification (query : String) : Option String × ℚ :=
  let query_lower := pyLower query
  match rules.find? (fun r => r.2.any (fun kw => substrB kw query_lower)) with
  | some r => (some r.1, 8/10)
  | none => (none, 0)

/-- SemanticClassifier.detect_student_scenario: lower the query, scan the
scenarios in order, return the first whose keyword set has a substring
match, else None. -/
def detect_student_scenario (query : String) : Option String :=
  let query_lower := pyLower query
  (student_scenarios.find? (fun r => r.2.any (fun kw => substrB kw query_lower))).map
    (fun r => r.1)

/-- One best-tracking step of the vector loop in classify_academic_query:
keep the new category exactly when its similarity strictly exceeds the
best so far. -/
def classifyStep (simq : String → ℚ) (best : Option String × ℚ) (c : String) :
    Option String × ℚ :=
  if simq c > best.2 then (some c, simq c) else best

/-- Vector path of SemanticClassifier.classify_academic_query: fold the
best-tracking loop over the stored categories starting from
(None, 0.0), then threshold.  sim query c stands for the cosine
similarity of the query embedding against the stored vector of c. -/
def classify_vector (sim : String → String → ℚ) (query : String) (threshold : ℚ) :
    Option String × ℚ :=
  let best := categoryOrder.foldl (classifyStep (sim query)) (none, 0)
  if best.2 ≥ threshold then (best.1, best.2) else (none, best.2)

/-- Representative text of a book: name and description joined by a space. -/
def bookText (b : Book) : String :=
  strOfVal (getD b "name" (.str "")) ++ " " ++ strOfVal (getD b "description" (.str ""))

/-- The transient scoring field attached on the vector path. -/
def scoreKey : String := "_semantic_score"

/-- Numeric reading of a field value; the sort key treats the default 0
and any stored similarity as numbers. -/
def valNum : Val → ℚ
  | .num q => q
  | .str _ => 0

/-- Python x.get(_semantic_score, 0) used as the sort key. -/
def scoreOf (b : Book) : ℚ :=
  valNum (getD b scoreKey (.num 0))

/-- SemanticClassifier._rule_based_book_filter: unknown category gives [],
else keep books whose lowered representative text contains some lowered
keyword of the category, first five. -/
def _rule_based_book_filter (books : List Book) (target_category : String) :
    List Book :=
  match academic_categories.find? (fun r => r.1 == target_category) with
  | none => []
  | some r =>
    (books.filter (fun b =>
      r.2.any (fun kw => substrB (pyLower kw) (pyLower (bookText b))))).take 5

/-- Vector path of SemanticClassifier.find_books_by_semantic_category:
reject unknown categories; keep books with nonblank representative text
whose similarity reaches the threshold, attaching the score to a copy;
stable-sort by score descending; strip the score; return the first five.
sim text c stands for the cosine similarity of the text embedding
against the stored vector of c. -/
def find_books_vector (sim : String → String → ℚ) (books : List Book)
    (target_category : String) (threshold : ℚ) : List Book :=
  if target_category ∈ categoryOrder then
    (((List.insertionSort (fun a b => scoreOf b ≤ scoreOf a)
        ((books.filter (fun b =>
          !(pyStrip (bookText b)).data.isEmpty &&
            decide (sim (bookText b) target_category ≥ threshold))).map
          (fun b => setKey b scoreKey (.num (sim (bookText b) target_category))))).map
        (fun b => eraseKey b scoreKey)).take 5)
  else []

/-- Recommendation bundle returned by get_contextual_recommendations. -/
structure Recommendations where
  category : String
  scenario : Option String
  tips : List String
  related_subjects : List String
  typical_products : List String
deriving DecidableEq

/-- SemanticClassifier.get_contextual_recommendations, translated branch
by branch from the source if-chain. -/
def get_contextual_recommendations (category : String)
    (scenario : Option String := none) : Recommendations :=
  let base : Recommendations :=
    { category := category, scenario := scenario,
      tips := [], related_subjects := [], typical_products := [] }
  if category = "ingenieria_software" then
    let r := { base with
      related_subjects := ["Algoritmos", "Estructuras de Datos", "Bases de Datos"],
      typical_products := ["Libros de programación", "Licencias de software", "Equipos de desarrollo"] }
    if scenario = some "pregrado_inicio" then
      { r with tips :=
        ["Comienza con fundamentos de programación",
         "No te preocupes si eres principiante, todos empezamos así",
         "Busca libros como \u0027Clean Code\u0027 para buenas prácticas"] }
    else if scenario = some "práctica_laboratorio" then
      { r with tips :=
        ["Necesitarás una buena laptop para desarrollo",
         "Considera equipos como Raspberry Pi para IoT",
         "Busca licencias de IDEs y software de desarrollo"] }
    else r
  else if category = "enfermeria" then
    let r := { base with
      related_subjects := ["Cuidados Básicos", "Farmacología", "Semiología"],
      typical_products := ["Estetoscopios", "Esfigmomanómetros", "Kits de venopunción"] }
    if scenario = some "práctica_laboratorio" then
      { r with tips :=
        ["Busca maniquíes de práctica para simulación",
         "Los equipos de monitoreo vital son esenciales",
         "Considera libros de farmacología para enfermería"] }
    else r
  else if category = "medicina" then
    let r := { base with
      related_subjects := ["Semiología", "Fisiología", "Farmacología"],
      typical_products := ["Estetoscopios", "Otoscopios", "Kits de diagnóstico"] }
    if scenario = some "investigación" then
      { r with tips :=
        ["Busca libros de investigación médica",
         "Considera equipos para ayudas diagnósticas",
         "Material de inglés médico puede ser útil"] }
    else r
  else if category = "odontologia" then
    let r := { base with
      related_subjects := ["Patología Oral", "Cirugía", "Periodoncia"],
      typical_products := ["Equipos odontológicos", "Instrumental quirúrgico", "Modelos anatómicos"] }
    if scenario = some "práctica_laboratorio" then
      { r with tips :=
        ["Busca turbinas y micromotores para práctica",
         "Los esterilizadores son indispensables",
         "Considera software de planificación dental"] }
    else r
  else if category = "derecho" then
    let r := { base with
      related_subjects := ["Constitucional", "Penal", "Civil"],
      typical_products := ["Códigos civiles", "Gacetas judiciales", "Software jurídico"] }
    if scenario = some "profesionalización" then
      { r with tips :=
        ["Busca oportunidades de consultorio jurídico",
         "Considera equipos de audio para grabaciones",
         "Bases de datos legales son muy útiles"] }
    else r
  else base

/-- Claim-side first match over a keyword table: the first row one of
whose keywords is a case-insensitive substring of the query, both sides
lowered, as the spec words the rule paths. -/
def claimFirstMatch (table : List (String × List String)) (q : String) : Option String :=
  (table.find? (fun r => r.2.any (fun kw => substrB (pyLower kw) (pyLower q)))).map
    (fun r => r.1)

/-- Claim-side restatement of rule-based classification: first category in
the fixed rule order medicina, ingenieria_software, matematicas, derecho,
administracion with a case-insensitive keyword substring match gets
confidence 0.8, otherwise (absent, 0.0). -/
def claimRuleResult (q : String) : Option String × ℚ :=
  match claimFirstMatch rules q with
  | some c => (some c, 8/10)
  | none => (none, 0)

/-- Claim-side restatement of scenario detection: first scenario in the
fixed order pregrado_inicio, práctica_laboratorio, investigación,
profesionalización, especialización with a case-insensitive keyword
substring match, otherwise absent. -/
def claimScenarioResult (q : String) : Option String :=
  claimFirstMatch student_scenarios q

/-- Category-level related subjects assigned by
get_contextual_recommendations, read off its if-chain. -/
def category_related_subjects (category : String) : List String :=
  if category = "ingenieria_software" then ["Algoritmos", "Estructuras de Datos", "Bases de Datos"]
  else if category = "enfermeria" then ["Cuidados Básicos", "Farmacología", "Semiología"]
  else if category = "medicina" then ["Semiología", "Fisiología", "Farmacología"]
  else if category = "odontologia" then ["Patología Oral", "Cirugía", "Periodoncia"]
  else if category = "derecho" then ["Constitucional", "Penal", "Civil"]
  else []

/-- Category-level typical products assigned by
get_contextual_recommendations, read off its if-chain. -/
def category_typical_products (category : String) : List String :=
  if category = "ingenieria_software" then ["Libros de programación", "Licencias de software", "Equipos de desarrollo"]
  else if category = "enfermeria" then ["Estetoscopios", "Esfigmomanómetros", "Kits de venopunción"]
  else if category = "medicina" then ["Estetoscopios", "Otoscopios", "Kits de diagnóstico"]
  else if category = "odontologia" then ["Equipos odontológicos", "Instrumental quirúrgico", "Modelos anatómicos"]
  else if category = "derecho" then ["Códigos civiles", "Gacetas judiciales", "Software jurídico"]
  else []

/-- The (category, scenario) pairs for which get_contextual_recommendations
carries a scenario-specific tip template. -/
def tipPairs : List (String × Option String) :=
  [("ingenieria_software", some "pregrado_inicio"),
   ("ingenieria_software", some "práctica_laboratorio"),
   ("enfermeria", some "práctica_laboratorio"),
   ("medicina", some "investigación"),
   ("odontologia", some "práctica_laboratorio"),
   ("derecho", some "profesionalización")]

/-- Fixed similarity function used to instantiate vector-path theorems on
concrete inputs. -/
def simW : String → String → ℚ :=
  fun _ c => if c = "medicina" then 1 else 0

/-- Concrete catalog item used to instantiate theorems. -/
def bkW : Book :=
  [("name", Val.str "harrison medicina interna"),
   ("description", Val.str "texto de medicina"),
   ("price", Val.num 100)]

/- ------------------------------------------------------------------ -/
/- Helper lemmas                                                       -/
/- ------------------------------------------------------------------ -/

theorem any_congrOn {α : Type _} {p q : α → Bool} :
    ∀ {l : List α}, (∀ a ∈ l, p a = q a) → l.any p = l.any q := by
  intro l
  induction l with
  | nil => intro _; rfl
  | cons a t ih =>
    intro h
    simp only [List.any_cons]
    rw [h a (by simp), ih (fun x hx => h x (by simp [hx]))]

theorem find?_congrOn {α : Type _} {p q : α → Bool} :
    ∀ {l : List α}, (∀ a ∈ l, p a = q a) → l.find? p = l.find? q := by
  intro l
  induction l with
  | nil => intro _; rfl
  | cons a t ih =>
    intro h
    rw [List.find?_cons, List.find?_cons, ← h a (by simp)]
    cases hpa : p a
    · exact ih (fun x hx => h x (by simp [hx]))
    · rfl

theorem rbc_eq (q : String) :
    _rule_based_classification q =
      match rules.find? (fun r => r.2.any (fun kw => substrB kw (pyLower q))) with
      | some r => (some r.1, 8/10)
      | none => (none, 0) := rfl

theorem dss_eq (q : String) :
    detect_student_scenario q =
      (student_scenarios.find?
        (fun r => r.2.any (fun kw => substrB kw (pyLower q)))).map (fun r => r.1) := rfl

/- ------------------------------------------------------------------ -/
/- Claims                                                              -/
/- ------------------------------------------------------------------ -/

/-- Claim C3: in rule-only mode, classify_academic_query returns the
first category, in the fixed rule order medicina, ingenieria_software,
matematicas, derecho, administracion, any of whose rule keywords is a
case-insensitive substring of the query, with confidence exactly 0.8;
if no rule keyword matches it returns (absent, 0.0); the query about
programming in python yields (ingenieria_software, 0.8). -/
theorem rule_based_classification_first_match :
    (∀ q, _rule_based_classification q = claimRuleResult q) ∧
    _rule_based_classification "necesito un libro de programación en python" =
      (some "ingenieria_software", 8/10) := by
  constructor
  · intro q
    have hfix : ∀ r ∈ rules, ∀ kw ∈ r.2, pyLower kw = kw := by decide
    have hfind :
        rules.find? (fun r => r.2.any (fun kw => substrB kw (pyLower q)))
          = rules.find? (fun r => r.2.any (fun kw => substrB (pyLower kw) (pyLower q))) := by
      apply find?_congrOn
      intro r hr
      apply any_congrOn
      intro kw hkw
      rw [hfix r hr kw hkw]
    rw [rbc_eq, hfind]
    unfold claimRuleResult claimFirstMatch
    cases rules.find? (fun r => r.2.any (fun kw => substrB (pyLower kw) (pyLower q))) <;> simp
  · rfl

/-- Claim C8: detect_student_scenario returns the first scenario, in the
fixed order pregrado_inicio, práctica_laboratorio, investigación,
profesionalización, especialización, any of whose keywords is a
case-insensitive substring of the query, absent if none matches; the
query hola yields absent. -/
theorem detect_student_scenario_first_match :
    (∀ q, detect_student_scenario q = claimScenarioResult q) ∧
    detect_student_scenario "hola" = none := by
  constructor
  · intro q
    have hfix : ∀ r ∈ student_scenarios, ∀ kw ∈ r.2, pyLower kw = kw := by decide
    have hfind :
        student_scenarios.find? (fun r => r.2.any (fun kw => substrB kw (pyLower q)))
          = student_scenarios.find?
              (fun r => r.2.any (fun kw => substrB (pyLower kw) (pyLower q))) := by
      apply find?_congrOn
      intro r hr
      apply any_congrOn
      intro kw hkw
      rw [hfix r hr kw hkw]
    rw [dss_eq, hfind]
    rfl
  · rfl

/-- Claim C4: for a category identifier that is not a known category,
find_books_by_semantic_category returns the empty sequence on both the
vector path and the rule-fallback path (and, being total, raises no
exception). -/
theorem find_books_unknown_category_empty (sim : String → String → ℚ)
    (books : List Book) (t : ℚ) {cat : String} (h : cat ∉ categoryOrder) :
    find_books_vector sim books cat t = [] ∧
    _rule_based_book_filter books cat = [] := by
  constructor
  · unfold find_books_vector
    rw [if_neg h]
  · unfold _rule_based_book_filter
    have hnone : academic_categories.find? (fun r => r.1 == cat) = none := by
      rw [List.find?_eq_none]
      intro x hx hbx
      apply h
      have hx1 : x.1 = cat := by
        simpa using hbx
      rw [← hx1]
      exact List.mem_map_of_mem (fun p => p.1) hx
    rw [hnone]

/-- Witness for claim C4 at the concrete unknown category of the spec
scenario. -/
theorem find_books_unknown_category_empty_applied :
    find_books_vector simW [bkW] "unknown_category" (1/4) = [] ∧
    _rule_based_book_filter [bkW] "unknown_category" = [] :=
  find_books_unknown_category_empty simW [bkW] (1/4) (by decide)

/-- Claim C10: for the known categories matematicas and administracion,
get_contextual_recommendations returns empty tips, related subjects and
typical products for every scenario, the same three empty lists an
unknown category produces. -/
theorem recommendations_matematicas_administracion_empty :
    ∀ scenario : Option String,
      get_contextual_recommendations "matematicas" scenario =
        { category := "matematicas", scenario := scenario,
          tips := [], related_subjects := [], typical_products := [] } ∧
      get_contextual_recommendations "administracion" scenario =
        { category := "administracion", scenario := scenario,
          tips := [], related_subjects := [], typical_products := [] } ∧
      "matematicas" ∈ categoryOrder ∧ "administracion" ∈ categoryOrder ∧
      ((get_contextual_recommendations "matematicas" scenario).tips,
       (get_contextual_recommendations "matematicas" scenario).related_subjects,
       (get_contextual_recommendations "matematicas" scenario).typical_products) =
      ((get_contextual_recommendations "filosofia" scenario).tips,
       (get_contextual_recommendations "filosofia" scenario).related_subjects,
       (get_contextual_recommendations "filosofia" scenario).typical_products) := by
  intro scenario
  refine ⟨?_, ?_, by decide, by decide, ?_⟩ <;>
    simp [get_contextual_recommendations]

theorem length_filter_mono {α : Type _} {p q : α → Bool}
    (h : ∀ a, q a = true → p a = true) :
    ∀ l : List α, (l.filter q).length ≤ (l.filter p).length := by
  intro l
  induction l with
  | nil => simp
  | cons a t ih =>
    by_cases hq : q a = true
    · rw [List.filter_cons_of_pos hq, List.filter_cons_of_pos (h a hq)]
      simpa using ih
    · rw [List.filter_cons_of_neg hq]
      by_cases hp : p a = true
      · rw [List.filter_cons_of_pos hp]
        exact le_trans ih (Nat.le_succ _)
      · rw [List.filter_cons_of_neg hp]
        exact ih

theorem filter_map_replace (k : String) (v : Val) :
    ∀ b : Book,
      (b.map (fun p => if p.1 == k then (k, v) else p)).filter (fun p => p.1 != k)
        = b.filter (fun p => p.1 != k) := by
  intro b
  induction b with
  | nil => rfl
  | cons x t ih =>
    by_cases hx : x.1 = k
    · have hbeq : (x.1 == k) = true := by simpa using hx
      simp only [List.map_cons, if_pos hbeq]
      rw [List.filter_cons_of_neg (by simp), List.filter_cons_of_neg (by simp [hx])]
      exact ih
    · have hbeq : (x.1 == k) = false := by simpa using hx
      simp only [List.map_cons, hbeq, if_neg]
      rw [List.filter_cons_of_pos (by simp [hx]), List.filter_cons_of_pos (by simp [hx])]
      simpa using ih

theorem eraseKey_setKey (b : Book) (k : String) (v : Val) :
    eraseKey (setKey b k v) k = eraseKey b k := by
  unfold setKey eraseKey
  by_cases h : hasKey b k = true
  · rw [if_pos h]
    exact filter_map_replace k v b
  · rw [if_neg h, List.filter_append]
    simp

theorem hasKey_eraseKey (b : Book) (k : String) :
    hasKey (eraseKey b k) k = false := by
  simp only [hasKey, eraseKey, List.any_eq_false]
  intro x hx
  have h2 := (List.mem_filter.mp hx).2
  simp only [bne_iff_ne, ne_eq] at h2
  simpa using h2

theorem find_books_vector_mem {sim : String → String → ℚ} {books : List Book}
    {cat : String} {t : ℚ} {b : Book}
    (hb : b ∈ find_books_vector sim books cat t) :
    hasKey b scoreKey = false ∧ ∃ b0 ∈ books, b = eraseKey b0 scoreKey := by
  unfold find_books_vector at hb
  by_cases hc : cat ∈ categoryOrder
  · rw [if_pos hc] at hb
    have hb2 := (List.take_sublist 5 _).subset hb
    rcases List.mem_map.mp hb2 with ⟨b1, hb1, rfl⟩
    have hb1m := (List.perm_insertionSort _ _).mem_iff.mp hb1
    rcases List.mem_map.mp hb1m with ⟨b0, hb0f, rfl⟩
    have hb0 : b0 ∈ books := List.mem_of_mem_filter hb0f
    rw [eraseKey_setKey]
    exact ⟨hasKey_eraseKey b0 scoreKey, b0, hb0, rfl⟩
  · rw [if_neg hc] at hb
    simp at hb

/-- Claim C9: in rule-only mode classify_academic_query never returns
enfermeria or odontologia, because the fallback rule list carries no
rule for them, and every query containing the substring enfermería is
classified (medicina, 0.8), enfermería being a keyword of the medicina
rule, which is checked first. -/
theorem rule_mode_never_enfermeria_odontologia :
    ∀ q, (_rule_based_classification q).1 ≠ some "enfermeria" ∧
      (_rule_based_classification q).1 ≠ some "odontologia" ∧
      ("enfermería".data <:+: q.data →
        _rule_based_classification q = (some "medicina", 8/10)) := by
  intro q
  have hfst : ∀ s, (_rule_based_classification q).1 = some s →
      s = "medicina" ∨ s = "ingenieria_software" ∨ s = "matematicas" ∨
        s = "derecho" ∨ s = "administracion" := by
    intro s hs
    rw [rbc_eq] at hs
    cases hf : rules.find? (fun r => r.2.any (fun kw => substrB kw (pyLower q))) with
    | none => rw [hf] at hs; simp at hs
    | some r =>
      rw [hf] at hs
      simp only at hs
      have hr := List.mem_of_find?_eq_some hf
      rw [← Option.some.inj hs]
      simp only [rules, List.mem_cons, List.not_mem_nil, or_false] at hr
      rcases hr with h | h | h | h | h <;> simp [h]
  refine ⟨?_, ?_, ?_⟩
  · intro hc
    exact absurd (hfst "enfermeria" hc) (by decide)
  · intro hc
    exact absurd (hfst "odontologia" hc) (by decide)
  · intro h
    have hql : "enfermería".data <:+: (pyLower q).data := by
      have h2 := List.IsInfix.map pyLowerChar h
      have h3 : "enfermería".data.map pyLowerChar = "enfermería".data := by decide
      rw [h3] at h2
      exact h2
    have hkw : substrB "enfermería" (pyLower q) = true := by
      unfold substrB
      exact decide_eq_true hql
    have hP : ((("medicina",
         ["medicina", "anatomía", "fisiología", "patología", "cardiología",
          "enfermería", "clínica", "hospital", "paciente", "diagnóstico"]) :
        String × List String).2).any (fun kw => substrB kw (pyLower q)) = true := by
      simp only [List.any_eq_true]
      exact ⟨"enfermería", by simp, hkw⟩
    have hfind : rules.find? (fun r => r.2.any (fun kw => substrB kw (pyLower q)))
        = some ("medicina",
           ["medicina", "anatomía", "fisiología", "patología", "cardiología",
            "enfermería", "clínica", "hospital", "paciente", "diagnóstico"]) := by
      unfold rules
      rw [List.find?_cons, hP]
    rw [rbc_eq, hfind]

/-- Witness for claim C9 at a concrete query containing enfermería. -/
theorem rule_mode_never_enfermeria_odontologia_applied :
    (_rule_based_classification "curso de enfermería").1 ≠ some "enfermeria" ∧
    _rule_based_classification "curso de enfermería" = (some "medicina", 8/10) :=
  ⟨(rule_mode_never_enfermeria_odontologia "curso de enfermería").1,
   (rule_mode_never_enfermeria_odontologia "curso de enfermería").2.2 (by decide)⟩

/-- Concrete catalog item that already carries the transient scoring
field on input. -/
def bkScore : Book := [(scoreKey, Val.num 1), ("name", Val.str "medicina")]

/-- Counterexample to claim C2 as stated: on the rule-fallback path the
items are returned verbatim, so an input item that already carries a
field named _semantic_score is returned still carrying it. -/
theorem rule_filter_returns_preexisting_score_field :
    _rule_based_book_filter [bkScore] "medicina" = [bkScore] ∧
    hasKey bkScore scoreKey = true :=
  ⟨rfl, rfl⟩

/-- Claim C2 (amended): find_books_by_semantic_category returns at most
5 items on both the vector path and the rule-fallback path; every
vector-path item is an input item with the _semantic_score key stripped,
so it carries no _semantic_score field and no field absent from that
input item; every rule-fallback item is an input item verbatim, so it
carries a _semantic_score field only if that input item already did,
and no field absent from it. -/
theorem find_books_cap_and_no_new_fields (sim : String → String → ℚ)
    (books : List Book) (cat : String) (t : ℚ) :
    (find_books_vector sim books cat t).length ≤ 5 ∧
    (_rule_based_book_filter books cat).length ≤ 5 ∧
    (∀ b ∈ find_books_vector sim books cat t,
      hasKey b scoreKey = false ∧
        ∃ b0 ∈ books, b = eraseKey b0 scoreKey ∧ ∀ p ∈ b, p ∈ b0) ∧
    (∀ b ∈ _rule_based_book_filter books cat, b ∈ books) := by
  refine ⟨?_, ?_, ?_, ?_⟩
  · unfold find_books_vector
    split
    · exact List.length_take_le 5 _
    · simp
  · unfold _rule_based_book_filter
    split
    · simp
    · exact List.length_take_le 5 _
  · intro b hb
    rcases find_books_vector_mem hb with ⟨hkey, b0, hb0, rfl⟩
    exact ⟨hkey, b0, hb0, rfl, fun p hp => List.mem_of_mem_filter hp⟩
  · intro b hb
    unfold _rule_based_book_filter at hb
    rcases hmatch : academic_categories.find? (fun r => r.1 == cat) with _ | r <;>
      rw [hmatch] at hb
    · simp at hb
    · exact List.mem_of_mem_filter ((List.take_sublist 5 _).subset hb)

/-- Claim C5: on the vector path, for a fixed item list, category and
embedding function, raising the threshold never increases the number of
returned items. -/
theorem find_books_vector_threshold_monotone (sim : String → String → ℚ)
    (books : List Book) (cat : String) {t1 t2 : ℚ} (h : t1 ≤ t2) :
    (find_books_vector sim books cat t2).length ≤
      (find_books_vector sim books cat t1).length := by
  unfold find_books_vector
  by_cases hc : cat ∈ categoryOrder
  · rw [if_pos hc, if_pos hc]
    rw [List.length_take, List.length_take, List.length_map, List.length_map,
      (List.perm_insertionSort _ _).length_eq, (List.perm_insertionSort _ _).length_eq,
      List.length_map, List.length_map]
    apply inf_le_inf_left
    apply length_filter_mono
    intro a ha
    simp only [Bool.and_eq_true, decide_eq_true_eq] at ha ⊢
    exact ⟨ha.1, le_trans h ha.2⟩
  · rw [if_neg hc, if_neg hc]

/-- Witness for claim C5 at a concrete item list, category and pair of
thresholds. -/
theorem find_books_vector_threshold_monotone_applied :
    (find_books_vector simW [bkW] "medicina" 1).length ≤
      (find_books_vector simW [bkW] "medicina" 0).length :=
  find_books_vector_threshold_monotone simW [bkW] "medicina" (by norm_num)

/-- Claim C6: find_books_by_semantic_category never mutates an input
item: on the vector path the transient score is attached to a copy and
every returned item equals an input item with the score key stripped,
and on the rule-fallback path the returned list is a subsequence of the
input list, preserving order and identity. -/
theorem find_books_no_mutation_and_rule_subsequence (sim : String → String → ℚ)
    (books : List Book) (cat : String) (t : ℚ) :
    (_rule_based_book_filter books cat).Sublist books ∧
    ∀ b ∈ find_books_vector sim books cat t,
      ∃ b0 ∈ books, b = eraseKey b0 scoreKey := by
  constructor
  · unfold _rule_based_book_filter
    split
    · exact List.nil_sublist books
    · exact (List.take_sublist 5 _).trans (List.filter_sublist books)
  · intro b hb
    exact (find_books_vector_mem hb).2

/-- Witness for claim C2 on a concrete item list and category, on both
paths. -/
theorem find_books_cap_and_no_new_fields_applied :
    (find_books_vector simW [bkW] "medicina" 0).length ≤ 5 ∧
    (hasKey bkW scoreKey = false ∧
      ∃ b0 ∈ [bkW], bkW = eraseKey b0 scoreKey ∧ ∀ p ∈ bkW, p ∈ b0) ∧
    bkW ∈ [bkW] :=
  ⟨(find_books_cap_and_no_new_fields simW [bkW] "medicina" 0).1,
   (find_books_cap_and_no_new_fields simW [bkW] "medicina" 0).2.2.1 bkW (by decide),
   (find_books_cap_and_no_new_fields simW [bkW] "medicina" 0).2.2.2 bkW (by decide)⟩

/-- Witness for claim C6 on a concrete item list and category. -/
theorem find_books_no_mutation_and_rule_subsequence_applied :
    (_rule_based_book_filter [bkW] "medicina").Sublist [bkW] ∧
    ∃ b0 ∈ [bkW], bkW = eraseKey b0 scoreKey :=
  ⟨(find_books_no_mutation_and_rule_subsequence simW [bkW] "medicina" 0).1,
   (find_books_no_mutation_and_rule_subsequence simW [bkW] "medicina" 0).2 bkW (by decide)⟩

theorem foldBest_snd_le (s : String → ℚ) :
    ∀ (l : List String) (acc : Option String × ℚ),
      acc.2 ≤ (l.foldl (classifyStep s) acc).2 := by
  intro l
  induction l with
  | nil => intro acc; exact le_refl _
  | cons c t ih =>
    intro acc
    rw [List.foldl_cons]
    refine le_trans ?_ (ih (classifyStep s acc c))
    unfold classifyStep
    split
    · exact le_of_lt (by assumption)
    · exact le_refl _

theorem foldBest_le_of_mem (s : String → ℚ) :
    ∀ (l : List String) (acc : Option String × ℚ), ∀ c ∈ l,
      s c ≤ (l.foldl (classifyStep s) acc).2 := by
  intro l
  induction l with
  | nil => intro acc c hc; cases hc
  | cons a t ih =>
    intro acc c hc
    rw [List.foldl_cons]
    rcases List.mem_cons.mp hc with rfl | hct
    · refine le_trans ?_ (foldBest_snd_le s t (classifyStep s acc c))
      unfold classifyStep
      split
      · exact le_refl _
      · exact le_of_not_lt (by assumption)
    · exact ih (classifyStep s acc a) c hct

theorem foldBest_attain (s : String → ℚ) :
    ∀ (l : List String) (acc : Option String × ℚ),
      l.foldl (classifyStep s) acc = acc ∨
        ∃ c ∈ l, (l.foldl (classifyStep s) acc).1 = some c ∧
          (l.foldl (classifyStep s) acc).2 = s c := by
  intro l
  induction l with
  | nil => intro acc; exact Or.inl rfl
  | cons a t ih =>
    intro acc
    rw [List.foldl_cons]
    rcases ih (classifyStep s acc a) with heq | ⟨c, hc, h1, h2⟩
    · rw [heq]
      unfold classifyStep
      split
      · exact Or.inr ⟨a, by simp, rfl, rfl⟩
      · exact Or.inl rfl
    · exact Or.inr ⟨c, by simp [hc], h1, h2⟩

/-- Claim C1 (amended): on the vector path, provided at least one stored
category has strictly positive similarity to the query, the returned
confidence is the maximum similarity over all stored categories, the
returned category attains that maximum when the confidence reaches the
threshold, and the category is absent when the confidence is below the
threshold.  Without the positivity premise the loop, which starts its
best score at 0 and keeps only strict improvements, reports confidence
0 instead of a negative maximum. -/
theorem classify_vector_confidence_is_max (sim : String → String → ℚ)
    (query : String) (threshold : ℚ)
    (h : ∃ c ∈ categoryOrder, 0 < sim query c) :
    (∀ c ∈ categoryOrder, sim query c ≤ (classify_vector sim query threshold).2) ∧
    (∃ c ∈ categoryOrder, sim query c = (classify_vector sim query threshold).2) ∧
    (threshold ≤ (classify_vector sim query threshold).2 →
      ∃ c ∈ categoryOrder, (classify_vector sim query threshold).1 = some c ∧
        sim query c = (classify_vector sim query threshold).2) ∧
    ((classify_vector sim query threshold).2 < threshold →
      (classify_vector sim query threshold).1 = none) := by
  have hres2 : (classify_vector sim query threshold).2 =
      (categoryOrder.foldl (classifyStep (sim query)) (none, 0)).2 := by
    show (if (categoryOrder.foldl (classifyStep (sim query)) (none, 0)).2 ≥ threshold
        then ((categoryOrder.foldl (classifyStep (sim query)) (none, 0)).1,
              (categoryOrder.foldl (classifyStep (sim query)) (none, 0)).2)
        else (none, (categoryOrder.foldl (classifyStep (sim query)) (none, 0)).2)).2 = _
    split <;> rfl
  have hres1 : (classify_vector sim query threshold).1 =
      if (categoryOrder.foldl (classifyStep (sim query)) (none, 0)).2 ≥ threshold
        then (categoryOrder.foldl (classifyStep (sim query)) (none, 0)).1 else none := by
    show (if (categoryOrder.foldl (classifyStep (sim query)) (none, 0)).2 ≥ threshold
        then ((categoryOrder.foldl (classifyStep (sim query)) (none, 0)).1,
              (categoryOrder.foldl (classifyStep (sim query)) (none, 0)).2)
        else (none, (categoryOrder.foldl (classifyStep (sim query)) (none, 0)).2)).1 = _
    split <;> rfl
  have hattain : ∃ c ∈ categoryOrder,
      (categoryOrder.foldl (classifyStep (sim query)) (none, 0)).1 = some c ∧
      (categoryOrder.foldl (classifyStep (sim query)) (none, 0)).2 = sim query c := by
    rcases foldBest_attain (sim query) categoryOrder (none, 0) with heq | hex
    · exfalso
      rcases h with ⟨c, hc, hpos⟩
      have hle := foldBest_le_of_mem (sim query) categoryOrder (none, 0) c hc
      rw [heq] at hle
      exact absurd (lt_of_lt_of_le hpos hle) (lt_irrefl 0)
    · exact hex
  refine ⟨?_, ?_, ?_, ?_⟩
  · intro c hc
    rw [hres2]
    exact foldBest_le_of_mem (sim query) categoryOrder (none, 0) c hc
  · rcases hattain with ⟨c, hc, _, h2⟩
    exact ⟨c, hc, by rw [hres2, h2]⟩
  · intro ht
    rcases hattain with ⟨c, hc, h1, h2⟩
    rw [hres2] at ht
    refine ⟨c, hc, ?_, by rw [hres2, h2]⟩
    rw [hres1, if_pos ht]
    exact h1
  · intro hlt
    rw [hres2] at hlt
    rw [hres1, if_neg (not_le_of_lt hlt)]

/-- Counterexample to claim C1 as stated: when every cosine similarity is
negative (here all equal to -1), the code reports confidence 0 on
rejection, which is not the similarity of any stored category, hence
not the maximum similarity over all categories. -/
theorem classify_vector_negative_sims_counterexample :
    (classify_vector (fun _ _ => (-1 : ℚ)) "consulta" 1).2 = 0 ∧
    ∀ c ∈ categoryOrder, (fun (_ : String) (_ : String) => (-1 : ℚ)) "consulta" c ≠
      (classify_vector (fun _ _ => (-1 : ℚ)) "consulta" 1).2 := by
  have h2 : (classify_vector (fun _ _ => (-1 : ℚ)) "consulta" 1).2 = 0 := rfl
  refine ⟨h2, ?_⟩
  intro c _
  rw [h2]
  norm_num

/-- Witness for claim C1 at a concrete positive similarity function. -/
theorem classify_vector_confidence_is_max_applied :
    (∀ c ∈ categoryOrder, simW "libros" c ≤ (classify_vector simW "libros" (3/10)).2) ∧
    (∃ c ∈ categoryOrder, simW "libros" c = (classify_vector simW "libros" (3/10)).2) ∧
    ((3 : ℚ)/10 ≤ (classify_vector simW "libros" (3/10)).2 →
      ∃ c ∈ categoryOrder, (classify_vector simW "libros" (3/10)).1 = some c ∧
        simW "libros" c = (classify_vector simW "libros" (3/10)).2) ∧
    ((classify_vector simW "libros" (3/10)).2 < 3/10 →
      (classify_vector simW "libros" (3/10)).1 = none) :=
  classify_vector_confidence_is_max simW "libros" (3/10)
    ⟨"medicina", by decide, by norm_num [simW]⟩

/-- Claim C7: get_contextual_recommendations echoes the given category
and scenario, and, being total, never raises; for a category that is
not a known category it returns a bundle whose three lists are all
empty, for every scenario; for a known category and a (category,
scenario) pair with no scenario-specific tip template it returns an
empty tip list together with the category-level related subjects and
typical products. -/
theorem recommendations_degrade_gracefully :
    (∀ category scenario, category ∉ categoryOrder →
      get_contextual_recommendations category scenario =
        { category := category, scenario := scenario,
          tips := [], related_subjects := [], typical_products := [] }) ∧
    (∀ category ∈ categoryOrder, ∀ scenario, (category, scenario) ∉ tipPairs →
      (get_contextual_recommendations category scenario).tips = [] ∧
      (get_contextual_recommendations category scenario).related_subjects =
        category_related_subjects category ∧
      (get_contextual_recommendations category scenario).typical_products =
        category_typical_products category) := by
  constructor
  · intro category scenario h
    have h1 : category ≠ "ingenieria_software" := by rintro rfl; exact h (by decide)
    have h2 : category ≠ "enfermeria" := by rintro rfl; exact h (by decide)
    have h3 : category ≠ "medicina" := by rintro rfl; exact h (by decide)
    have h4 : category ≠ "odontologia" := by rintro rfl; exact h (by decide)
    have h5 : category ≠ "derecho" := by rintro rfl; exact h (by decide)
    simp [get_contextual_recommendations, h1, h2, h3, h4, h5]
  · intro category hc scenario hp
    have hc2 : category = "ingenieria_software" ∨ category = "enfermeria" ∨
        category = "medicina" ∨ category = "odontologia" ∨ category = "derecho" ∨
        category = "matematicas" ∨ category = "administracion" := by
      simpa [categoryOrder, academic_categories] using hc
    rcases hc2 with rfl | rfl | rfl | rfl | rfl | rfl | rfl
    · have hs1 : scenario ≠ some "pregrado_inicio" := by
        rintro rfl; exact hp (by decide)
      have hs2 : scenario ≠ some "práctica_laboratorio" := by
        rintro rfl; exact hp (by decide)
      refine ⟨?_, ?_, ?_⟩ <;>
        simp [get_contextual_recommendations, category_related_subjects,
          category_typical_products, hs1, hs2]
    · have hs : scenario ≠ some "práctica_laboratorio" := by
        rintro rfl; exact hp (by decide)
      refine ⟨?_, ?_, ?_⟩ <;>
        simp [get_contextual_recommendations, category_related_subjects,
          category_typical_products, hs]
    · have hs : scenario ≠ some "investigación" := by
        rintro rfl; exact hp (by decide)
      refine ⟨?_, ?_, ?_⟩ <;>
        simp [get_contextual_recommendations, category_related_subjects,
          category_typical_products, hs]
    · have hs : scenario ≠ some "práctica_laboratorio" := by
        rintro rfl; exact hp (by decide)
      refine ⟨?_, ?_, ?_⟩ <;>
        simp [get_contextual_recommendations, category_related_subjects,
          category_typical_products, hs]
    · have hs : scenario ≠ some "profesionalización" := by
        rintro rfl; exact hp (by decide)
      refine ⟨?_, ?_, ?_⟩ <;>
        simp [get_contextual_recommendations, category_related_subjects,
          category_typical_products, hs]
    · exact ⟨rfl, rfl, rfl⟩
    · exact ⟨rfl, rfl, rfl⟩

/-- Witness for claim C7 at a concrete unknown category and at a
concrete known category with a scenario outside its tip templates. -/
theorem recommendations_degrade_gracefully_applied :
    get_contextual_recommendations "historia" (some "investigación") =
      { category := "historia", scenario := some "investigación",
        tips := [], related_subjects := [], typical_products := [] } ∧
    ((get_contextual_recommendations "medicina" (some "pregrado_inicio")).tips = [] ∧
     (get_contextual_recommendations "medicina" (some "pregrado_inicio")).related_subjects =
       category_related_subjects "medicina" ∧
     (get_contextual_recommendations "medicina" (some "pregrado_inicio")).typical_products =
       category_typical_products "medicina") :=
  ⟨recommendations_degrade_gracefully.1 "historia" (some "investigación") (by decide),
   recommendations_degrade_gracefully.2 "medicina" (by decide)
     (some "pregrado_inicio") (by decide)⟩

end UniShop
